import Mathlib

/-!
Verification of the dynamic MCP server loader (`src/utils/dynamic_server_loader.py`)
and the tool searcher (`src/utils/tool_searcher.py`).

The Python code is shallowly embedded: Python JSON-like values become the
inductive `PyVal`; the loader's mutable fields `server_processes` and
`server_tools` become an explicit `LoaderState` threaded through each
operation; interactions with a child process (lines read from its stdout,
liveness polls, the wall clock) are inputs supplied per call, mirroring
exactly the observations the Python code makes of the outside world.
-/

/-- Python/JSON values as produced by `json.loads` and manipulated by the
loader: `null`/`None`, booleans, integers, strings, lists and string-keyed
dicts (insertion ordered, as Python dicts are). -/
inductive PyVal where
  | null : PyVal
  | bool : Bool → PyVal
  | int : Int → PyVal
  | str : String → PyVal
  | list : List PyVal → PyVal
  | dict : List (String × PyVal) → PyVal

mutual

def decEqPyVal : (a b : PyVal) → Decidable (a = b)
  | PyVal.null, PyVal.null => isTrue rfl
  | PyVal.bool a, PyVal.bool b =>
    match decEq a b with
    | isTrue h => isTrue (by rw [h])
    | isFalse h => isFalse (fun hh => h (PyVal.bool.inj hh))
  | PyVal.int a, PyVal.int b =>
    match decEq a b with
    | isTrue h => isTrue (by rw [h])
    | isFalse h => isFalse (fun hh => h (PyVal.int.inj hh))
  | PyVal.str a, PyVal.str b =>
    match decEq a b with
    | isTrue h => isTrue (by rw [h])
    | isFalse h => isFalse (fun hh => h (PyVal.str.inj hh))
  | PyVal.list xs, PyVal.list ys =>
    match decEqPyList xs ys with
    | isTrue h => isTrue (by rw [h])
    | isFalse h => isFalse (fun hh => h (PyVal.list.inj hh))
  | PyVal.dict xs, PyVal.dict ys =>
    match decEqPyDict xs ys with
    | isTrue h => isTrue (by rw [h])
    | isFalse h => isFalse (fun hh => h (PyVal.dict.inj hh))
  | PyVal.null, PyVal.bool _ => isFalse (by intro h; exact PyVal.noConfusion h)
  | PyVal.null, PyVal.int _ => isFalse (by intro h; exact PyVal.noConfusion h)
  | PyVal.null, PyVal.str _ => isFalse (by intro h; exact PyVal.noConfusion h)
  | PyVal.null, PyVal.list _ => isFalse (by intro h; exact PyVal.noConfusion h)
  | PyVal.null, PyVal.dict _ => isFalse (by intro h; exact PyVal.noConfusion h)
  | PyVal.bool _, PyVal.null => isFalse (by intro h; exact PyVal.noConfusion h)
  | PyVal.bool _, PyVal.int _ => isFalse (by intro h; exact PyVal.noConfusion h)
  | PyVal.bool _, PyVal.str _ => isFalse (by intro h; exact PyVal.noConfusion h)
  | PyVal.bool _, PyVal.list _ => isFalse (by intro h; exact PyVal.noConfusion h)
  | PyVal.bool _, PyVal.dict _ => isFalse (by intro h; exact PyVal.noConfusion h)
  | PyVal.int _, PyVal.null => isFalse (by intro h; exact PyVal.noConfusion h)
  | PyVal.int _, PyVal.bool _ => isFalse (by intro h; exact PyVal.noConfusion h)
  | PyVal.int _, PyVal.str _ => isFalse (by intro h; exact PyVal.noConfusion h)
  | PyVal.int _, PyVal.list _ => isFalse (by intro h; exact PyVal.noConfusion h)
  | PyVal.int _, PyVal.dict _ => isFalse (by intro h; exact PyVal.noConfusion h)
  | PyVal.str _, PyVal.null => isFalse (by intro h; exact PyVal.noConfusion h)
  | PyVal.str _, PyVal.bool _ => isFalse (by intro h; exact PyVal.noConfusion h)
  | PyVal.str _, PyVal.int _ => isFalse (by intro h; exact PyVal.noConfusion h)
  | PyVal.str _, PyVal.list _ => isFalse (by intro h; exact PyVal.noConfusion h)
  | PyVal.str _, PyVal.dict _ => isFalse (by intro h; exact PyVal.noConfusion h)
  | PyVal.list _, PyVal.null => isFalse (by intro h; exact PyVal.noConfusion h)
  | PyVal.list _, PyVal.bool _ => isFalse (by intro h; exact PyVal.noConfusion h)
  | PyVal.list _, PyVal.int _ => isFalse (by intro h; exact PyVal.noConfusion h)
  | PyVal.list _, PyVal.str _ => isFalse (by intro h; exact PyVal.noConfusion h)
  | PyVal.list _, PyVal.dict _ => isFalse (by intro h; exact PyVal.noConfusion h)
  | PyVal.dict _, PyVal.null => isFalse (by intro h; exact PyVal.noConfusion h)
  | PyVal.dict _, PyVal.bool _ => isFalse (by intro h; exact PyVal.noConfusion h)
  | PyVal.dict _, PyVal.int _ => isFalse (by intro h; exact PyVal.noConfusion h)
  | PyVal.dict _, PyVal.str _ => isFalse (by intro h; exact PyVal.noConfusion h)
  | PyVal.dict _, PyVal.list _ => isFalse (by intro h; exact PyVal.noConfusion h)

def decEqPyList : (a b : List PyVal) → Decidable (a = b)
  | [], [] => isTrue rfl
  | [], _ :: _ => isFalse (by intro h; exact List.noConfusion h)
  | _ :: _, [] => isFalse (by intro h; exact List.noConfusion h)
  | x :: xs, y :: ys =>
    match decEqPyVal x y with
    | isTrue h1 =>
      match decEqPyList xs ys with
      | isTrue h2 => isTrue (by rw [h1, h2])
      | isFalse h2 => isFalse (fun hh => h2 (List.cons.inj hh).2)
    | isFalse h1 => isFalse (fun hh => h1 (List.cons.inj hh).1)

def decEqPyDict : (a b : List (String × PyVal)) → Decidable (a = b)
  | [], [] => isTrue rfl
  | [], _ :: _ => isFalse (by intro h; exact List.noConfusion h)
  | _ :: _, [] => isFalse (by intro h; exact List.noConfusion h)
  | (k1, v1) :: xs, (k2, v2) :: ys =>
    match decEq k1 k2 with
    | isTrue hk =>
      match decEqPyVal v1 v2 with
      | isTrue hv =>
        match decEqPyDict xs ys with
        | isTrue h2 => isTrue (by rw [hk, hv, h2])
        | isFalse h2 => isFalse (fun hh => h2 (List.cons.inj hh).2)
      | isFalse hv =>
        isFalse (fun hh => hv (congrArg Prod.snd (List.cons.inj hh).1))
    | isFalse hk =>
      isFalse (fun hh => hk (congrArg Prod.fst (List.cons.inj hh).1))

end

instance : DecidableEq PyVal := decEqPyVal

/-- Python truthiness (`if not server_config`, `if content_items`, ...):
`None`, `False`, `0`, `""`, `[]`, `{}` are falsy, everything else truthy. -/
def truthy : PyVal → Bool
  | PyVal.null => false
  | PyVal.bool b => b
  | PyVal.int n => n != 0
  | PyVal.str s => s ≠ ""
  | PyVal.list xs => !xs.isEmpty
  | PyVal.dict xs => !xs.isEmpty

/-- Lookup in an association list, first match (Python `d.get(k)` / `d[k]`
on dicts whose keys are unique). -/
def dictGet {κ α : Type} [DecidableEq κ] (d : List (κ × α)) (k : κ) : Option α :=
  match d with
  | [] => Option.none
  | (k2, v) :: rest => if k2 = k then some v else dictGet rest k

/-- Python `d[k] = v`: replace the value of an existing key in place,
otherwise append the new binding at the end (insertion order). -/
def dictAssign {κ α : Type} [DecidableEq κ] (d : List (κ × α)) (k : κ) (v : α) :
    List (κ × α) :=
  match d with
  | [] => [(k, v)]
  | (k2, w) :: rest => if k2 = k then (k2, v) :: rest else (k2, w) :: dictAssign rest k v

/-- Python `del d[k]` (keys are unique in dict states arising from runs, so
filtering all occurrences agrees with deleting the one binding). -/
def dictRemove {κ α : Type} [DecidableEq κ] (d : List (κ × α)) (k : κ) : List (κ × α) :=
  d.filter (fun kv => kv.1 ≠ k)

/-- The keys of an association list, in order (Python `list(d.keys())`). -/
def dictKeys {κ α : Type} (d : List (κ × α)) : List κ := d.map Prod.fst

def charsStartWith : List Char → List Char → Bool
  | [], _ => true
  | _ :: _, [] => false
  | a :: as2, b :: bs => a = b && charsStartWith as2 bs

/-- Contiguous-substring occurrence test on character lists. -/
def subOccurs (needle : List Char) : List Char → Bool
  | [] => needle.isEmpty
  | c :: cs => charsStartWith needle (c :: cs) || subOccurs needle cs

/-- Python membership test `s in v` for a string `s`: dict → key membership,
list → element membership, str → substring test; on other values Python
raises `TypeError`, modelled as `Option.none`. -/
def pyIn (s : String) : PyVal → Option Bool
  | PyVal.dict d => some (dictGet d s).isSome
  | PyVal.list xs => some (xs.contains (PyVal.str s))
  | PyVal.str t => some (subOccurs s.toList t.toList)
  | _ => Option.none

/-! ### A model of `json.loads`

Python's `json.loads` restricted to the JSON fragment the wire protocol
uses: `null`, booleans, integers (floats are not modelled), strings with
the common escapes, arrays and objects. Recursion is bounded by explicit
fuel; `json_loads` supplies enough fuel for its input. -/

def skipWs : List Char → List Char
  | c :: cs => if c = ' ' ∨ c = '\n' ∨ c = '\t' ∨ c = '\r' then skipWs cs else c :: cs
  | [] => []

/-- Match an expected literal sequence of characters. -/
def expectLit : List Char → List Char → Option (List Char)
  | [], cs => some cs
  | e :: es, c :: cs => if c = e then expectLit es cs else Option.none
  | _ :: _, [] => Option.none

/-- Parse the body of a JSON string (opening quote already consumed). -/
def parseStringChars : Nat → List Char → Option (String × List Char)
  | 0, _ => Option.none
  | _, [] => Option.none
  | fuel + 1, c :: cs =>
    if c = '"' then some ("", cs)
    else if c = '\\' then
      match cs with
      | [] => Option.none
      | e :: cs2 =>
        let esc : Option Char :=
          if e = '"' then some '"'
          else if e = '\\' then some '\\'
          else if e = '/' then some '/'
          else if e = 'n' then some '\n'
          else if e = 't' then some '\t'
          else if e = 'r' then some '\r'
          else Option.none
        match esc with
        | some ch =>
          match parseStringChars fuel cs2 with
          | some (s, rest) => some (ch.toString ++ s, rest)
          | Option.none => Option.none
        | Option.none => Option.none
    else
      match parseStringChars fuel cs with
      | some (s, rest) => some (c.toString ++ s, rest)
      | Option.none => Option.none

/-- Leading decimal digits of the input. -/
def takeDigits : List Char → List Char × List Char
  | [] => ([], [])
  | c :: cs =>
    if c.isDigit then
      let (ds, rest) := takeDigits cs
      (c :: ds, rest)
    else ([], c :: cs)

def digitsToNat (ds : List Char) : Nat :=
  ds.foldl (fun acc c => acc * 10 + (c.toNat - 48)) 0

/-- Parse a JSON integer (a leading minus then digits); a following `.`,
`e` or `E` would start a float, which the model does not support. -/
def parseIntVal (cs : List Char) : Option (PyVal × List Char) :=
  let (neg, cs2) :=
    match cs with
    | '-' :: rest => (true, rest)
    | _ => (false, cs)
  let (ds, rest) := takeDigits cs2
  if ds.isEmpty then Option.none
  else
    match rest with
    | '.' :: _ => Option.none
    | 'e' :: _ => Option.none
    | 'E' :: _ => Option.none
    | _ =>
      let n : Int := Int.ofNat (digitsToNat ds)
      some (PyVal.int (if neg then -n else n), rest)

mutual

def parseVal : Nat → List Char → Option (PyVal × List Char)
  | 0, _ => Option.none
  | fuel + 1, cs =>
    match skipWs cs with
    | [] => Option.none
    | 'n' :: rest =>
      match expectLit ['u', 'l', 'l'] rest with
      | some rest2 => some (PyVal.null, rest2)
      | Option.none => Option.none
    | 't' :: rest =>
      match expectLit ['r', 'u', 'e'] rest with
      | some rest2 => some (PyVal.bool true, rest2)
      | Option.none => Option.none
    | 'f' :: rest =>
      match expectLit ['a', 'l', 's', 'e'] rest with
      | some rest2 => some (PyVal.bool false, rest2)
      | Option.none => Option.none
    | '"' :: rest =>
      match parseStringChars (rest.length + 1) rest with
      | some (s, rest2) => some (PyVal.str s, rest2)
      | Option.none => Option.none
    | '[' :: rest =>
      (match skipWs rest with
       | ']' :: rest2 => some (PyVal.list [], rest2)
       | cs2 =>
         match parseVal fuel cs2 with
         | some (v, cs3) =>
           match parseItemsRest fuel cs3 [v] with
           | some (vs, cs4) => some (PyVal.list vs, cs4)
           | Option.none => Option.none
         | Option.none => Option.none)
    | '{' :: rest =>
      (match skipWs rest with
       | '}' :: rest2 => some (PyVal.dict [], rest2)
       | cs2 =>
         match parseMember fuel cs2 with
         | some (k, v, cs3) =>
           match parseMembersRest fuel cs3 [(k, v)] with
           | some (ms, cs4) => some (PyVal.dict ms, cs4)
           | Option.none => Option.none
         | Option.none => Option.none)
    | cs2 => parseIntVal cs2

def parseItemsRest : Nat → List Char → List PyVal → Option (List PyVal × List Char)
  | 0, _, _ => Option.none
  | fuel + 1, cs, acc =>
    match skipWs cs with
    | ']' :: rest => some (acc, rest)
    | ',' :: rest =>
      match parseVal fuel rest with
      | some (v, cs2) => parseItemsRest fuel cs2 (acc ++ [v])
      | Option.none => Option.none
    | _ => Option.none

def parseMember : Nat → List Char → Option (String × PyVal × List Char)
  | 0, _ => Option.none
  | fuel + 1, cs =>
    match skipWs cs with
    | '"' :: rest =>
      match parseStringChars (rest.length + 1) rest with
      | some (k, cs2) =>
        (match skipWs cs2 with
         | ':' :: cs3 =>
           match parseVal fuel cs3 with
           | some (v, cs4) => some (k, v, cs4)
           | Option.none => Option.none
         | _ => Option.none)
      | Option.none => Option.none
    | _ => Option.none

def parseMembersRest : Nat → List Char → List (String × PyVal) →
    Option (List (String × PyVal) × List Char)
  | 0, _, _ => Option.none
  | fuel + 1, cs, acc =>
    match skipWs cs with
    | '}' :: rest => some (acc, rest)
    | ',' :: rest =>
      match parseMember fuel rest with
      | some (k, v, cs2) => parseMembersRest fuel cs2 (acc ++ [(k, v)])
      | Option.none => Option.none
    | _ => Option.none

end

/-- Model of Python `json.loads` on one line read from the child: parse one
JSON value and require only whitespace after it; `Option.none` models the
exception Python raises on malformed input. -/
def json_loads (s : String) : Option PyVal :=
  match parseVal (2 * s.length + 8) s.toList with
  | some (v, rest) => if (skipWs rest).isEmpty then some v else Option.none
  | Option.none => Option.none

example : json_loads "null" = some PyVal.null := by rfl
example : json_loads "pong" = Option.none := by rfl
example : json_loads "\"pong\"" = some (PyVal.str "pong") := by rfl
example : json_loads "\x7b\"n\": 42\x7d" = some (PyVal.dict [("n", PyVal.int 42)]) := by rfl
example : json_loads "\x7b\"id\": 1, \"result\": \x7b\x7d\x7d" =
    some (PyVal.dict [("id", PyVal.int 1), ("result", PyVal.dict [])]) := by rfl
example : json_loads "[1, -2, []]" =
    some (PyVal.list [PyVal.int 1, PyVal.int (-2), PyVal.list []]) := by rfl
example : json_loads "" = Option.none := by rfl

/-! ### The loader state and its observations of the outside world

`DynamicServerLoader` holds two mutable dicts, `server_processes` and
`server_tools` (`dynamic_server_loader.py` lines 28-29), plus a ghost
counter of `subprocess.Popen` invocations used to state spawn-count
properties. Tool-catalog keys are `PyVal` because the code uses
`tool.get("name")` as a dict key, which Python permits for any JSON value
(including `None` when the field is absent). -/

/-- A spawned child process; only its identity matters to the model. -/
structure Subproc where
  pid : Nat
  deriving DecidableEq

structure LoaderState where
  server_processes : List (String × Subproc)
  server_tools : List (String × List (PyVal × PyVal))
  spawns : Nat
  deriving DecidableEq

/-- The observations `load_server` makes of a particular spawn attempt:
whether `Popen` raises, whether the child has already exited when polled
after the 0.5 s grace sleep (line 100), and the two stdout lines read
during handshake (line 162) and discovery (line 214). `excMsg` stands for
the `str(e)` text interpolated into the except-branch error message. -/
structure SpawnBehavior where
  spawnRaises : Bool
  earlyExit : Bool
  initLine : String
  listLine : String
  excMsg : String

/-- `_initialize_server` (lines 128-186): write the `initialize` request
(id 1), read one response line, fail on a JSON decode error (the bare
except at line 184) or on a response carrying an `"error"` member
(line 165); otherwise write the `notifications/initialized` notification
and succeed. A blocked write is not modelled (it would also land in the
except branch and return `False`). -/
def _initialize_server (sb : SpawnBehavior) : Bool :=
  match json_loads sb.initLine with
  | Option.none => false
  | some resp =>
    match pyIn "error" resp with
    | Option.none => false
    | some true => false
    | some false => true

/-- Python indexing `v["k"]`: defined on dicts, a `TypeError` (modelled as
`Option.none`) on anything else. -/
def pyIndexStr (v : PyVal) (k : String) : Option PyVal :=
  match v with
  | PyVal.dict d => dictGet d k
  | _ => Option.none

/-- Lines 219-224: build the tool catalog from `response["result"]["tools"]`.
Keys are `tool.get("name")` (Python `None`, i.e. `PyVal.null`, when absent);
values keep `description` and `inputSchema` with their code defaults.
A non-dict element makes `tool.get` raise (→ `Option.none`, caught at
line 229). -/
def buildTools : List PyVal → List (PyVal × PyVal) → Option (List (PyVal × PyVal))
  | [], acc => some acc
  | PyVal.dict t :: rest, acc =>
    let tool_name := (dictGet t "name").getD PyVal.null
    let schema := PyVal.dict
      [("description", (dictGet t "description").getD (PyVal.str "")),
       ("inputSchema", (dictGet t "inputSchema").getD (PyVal.dict []))]
    buildTools rest (dictAssign acc tool_name schema)
  | _ :: _, _ => Option.none

/-- `_discover_tools` (lines 188-231): run the handshake, then send
`tools/list` (id 2) and read one line. Every failure — handshake failure,
JSON decode error, a response without `result.tools`, or an exception
while iterating the tools — yields the empty catalog `{}`; the function
never propagates an error. Iterating a non-list `tools` value either
raises or yields nothing, so it also ends at the empty catalog. -/
def _discover_tools (sb : SpawnBehavior) : List (PyVal × PyVal) :=
  if !_initialize_server sb then []
  else
    match json_loads sb.listLine with
    | Option.none => []
    | some resp =>
      match pyIn "result" resp with
      | Option.none => []
      | some false => []
      | some true =>
        match pyIndexStr resp "result" with
        | Option.none => []
        | some result =>
          match pyIn "tools" result with
          | Option.none => []
          | some false => []
          | some true =>
            match pyIndexStr result "tools" with
            | some (PyVal.list tools) =>
              match buildTools tools [] with
              | some built => built
              | Option.none => []
            | _ => []

/-- Truthiness of the `success` field of a result dict
(`load_result.get("success")`, line 254). -/
def resultSuccess (res : PyVal) : Bool :=
  match res with
  | PyVal.dict d => truthy ((dictGet d "success").getD PyVal.null)
  | _ => false

/-- `load_server` (lines 49-126). Under the registry lock: if the name is
already in `server_processes`, return success with the cached tool names
(lines 61-66). Otherwise look it up in the `mcpServers` config map; a
missing or falsy entry is the not-found error (lines 72-76). Then spawn
(ghost `spawns` counter incremented at the `Popen` call); if the child has
already exited when polled, the code reads `process.stderr` — which is
`None` because stderr goes to `DEVNULL` — so an `AttributeError` lands in
the except branch at line 122. On a live child, discover tools and store
BOTH the process and the catalog (lines 111-112), then return success.
Note: a failed handshake/discovery still stores the session, with an empty
catalog. A truthy non-dict config entry makes `server_config.get` raise,
also landing in the except branch. -/
def load_server (mcpServers : List (String × PyVal)) (sb : SpawnBehavior)
    (st : LoaderState) (server_name : String) : PyVal × LoaderState :=
  if (dictGet st.server_processes server_name).isSome then
    (PyVal.dict
      [("success", PyVal.bool true),
       ("message", PyVal.str ("Server \x27" ++ server_name ++ "\x27 already loaded")),
       ("tools", PyVal.list (dictKeys ((dictGet st.server_tools server_name).getD [])))],
     st)
  else
    let notFound : PyVal := PyVal.dict
      [("success", PyVal.bool false),
       ("error", PyVal.str ("Server \x27" ++ server_name ++ "\x27 not found in .mcp.json"))]
    let loadExc : PyVal := PyVal.dict
      [("success", PyVal.bool false),
       ("error", PyVal.str ("Failed to load server: " ++ sb.excMsg))]
    match dictGet mcpServers server_name with
    | Option.none => (notFound, st)
    | some server_config =>
      if !truthy server_config then (notFound, st)
      else
        match server_config with
        | PyVal.dict _ =>
          if sb.spawnRaises then (loadExc, st)
          else
            let process : Subproc := { pid := st.spawns }
            let st1 : LoaderState := { st with spawns := st.spawns + 1 }
            if sb.earlyExit then (loadExc, st1)
            else
              let tools := _discover_tools sb
              (PyVal.dict
                [("success", PyVal.bool true),
                 ("message", PyVal.str
                   ("Server \x27" ++ server_name ++ "\x27 loaded successfully")),
                 ("server_name", PyVal.str server_name),
                 ("tools", PyVal.list (dictKeys tools)),
                 ("tool_count", PyVal.int (Int.ofNat tools.length))],
               { st1 with
                  server_processes := dictAssign st1.server_processes server_name process,
                  server_tools := dictAssign st1.server_tools server_name tools })
        | _ => (loadExc, st)

/-- Shorthand for the `{"success": False, "error": msg}` dicts the loader
returns on every failure path. -/
def errDict (msg : String) : PyVal :=
  PyVal.dict [("success", PyVal.bool false), ("error", PyVal.str msg)]

/-- The observations one `call_tool` invocation makes: the liveness poll at
line 266, the wall clock sampled at line 279 (`int(time.time() * 1000)`),
whether `select` reported the child stdout readable within 5 s (line 295),
the line then read from it (line 303; `""` models EOF), and the `str(e)`
text of a raised exception. -/
structure CallWorld where
  pollDead : Bool
  clockMs : Int
  selectReady : Bool
  responseLine : String
  excMsg : String

/-- Result unwrapping, lines 312-338: when the `result` is a dict with a
truthy, nonempty `content`, take the first item; if it is a dict with a
`text` member, try `json.loads` on it — parsed JSON is returned directly
(line 327), anything else (a decode error, or a non-string `text`, whose
`json.loads` raises but is caught by the bare except at line 328) is
wrapped as `{"success": True, "result": text}`. All remaining shapes fall
through to the raw-result wrap at line 335; `Option.none` models an
exception escaping to line 350 (e.g. `content_items[0]` on a nonempty
dict, or `len` of a number). -/
def unwrapResult (result : PyVal) : Option PyVal :=
  let fallback : PyVal := PyVal.dict [("success", PyVal.bool true), ("result", result)]
  match result with
  | PyVal.dict d =>
    match dictGet d "content" with
    | Option.none => some fallback
    | some contentVal =>
      match contentVal with
      | PyVal.list [] => some fallback
      | PyVal.list (first :: _) =>
        (match first with
         | PyVal.dict fd =>
           match dictGet fd "text" with
           | Option.none => some fallback
           | some (PyVal.str text) =>
             match json_loads text with
             | some parsed => some parsed
             | Option.none =>
               some (PyVal.dict [("success", PyVal.bool true), ("result", PyVal.str text)])
           | some other =>
             some (PyVal.dict [("success", PyVal.bool true), ("result", other)])
         | _ => some fallback)
      | PyVal.str _ => some fallback
      | PyVal.dict [] => some fallback
      | PyVal.dict (_ :: _) => Option.none
      | PyVal.null => some fallback
      | PyVal.bool b => if b then Option.none else some fallback
      | PyVal.int n => if n = 0 then some fallback else Option.none
  | _ => some fallback

/-- What one `call_tool` invocation produced: the `tools/call` frame
written to the child's stdin (if the code reached the write at line 290),
the value returned to the caller, and the registry state afterwards. -/
structure CallOutcome where
  sent : Option PyVal
  ret : PyVal
  state : LoaderState
  deriving DecidableEq

/-- The `tools/call` frame built at lines 280-288: the id is the supplied
`call_id` and `arguments` is `parameters or {}` — Python `or`, so `None`
(and the already-empty dict) becomes `{}`. -/
def callRequest (tool_name : String) (parameters : Option (List (String × PyVal)))
    (call_id : Int) : PyVal :=
  PyVal.dict
    [("jsonrpc", PyVal.str "2.0"),
     ("method", PyVal.str "tools/call"),
     ("params", PyVal.dict
       [("name", PyVal.str tool_name),
        ("arguments",
          match parameters with
          | Option.none => PyVal.dict []
          | some p => if truthy (PyVal.dict p) then PyVal.dict p else PyVal.dict [])]),
     ("id", PyVal.int call_id)]

/-- `call_tool` (lines 233-354). Auto-loads an absent server (lines
252-255); a dead child is evicted from BOTH maps before the error returns
(lines 266-274). The request id is the millisecond wall clock (line 279);
`arguments` is `parameters or {}` (line 285). After writing the frame it
waits on `select` for 5 s — a timeout or an empty read leaves the state
untouched (lines 297-308). The response line is parsed and dispatched on
its `result` / `error` members without any comparison of its `id` against
`call_id`. -/
def call_tool (mcpServers : List (String × PyVal)) (sb : SpawnBehavior) (w : CallWorld)
    (st : LoaderState) (server_name tool_name : String)
    (parameters : Option (List (String × PyVal))) : CallOutcome :=
  let afterLoad : PyVal × LoaderState :=
    if (dictGet st.server_processes server_name).isNone then
      load_server mcpServers sb st server_name
    else (PyVal.dict [("success", PyVal.bool true)], st)
  let st0 := afterLoad.2
  if !resultSuccess afterLoad.1 then ⟨Option.none, afterLoad.1, st0⟩
  else
    match dictGet st0.server_processes server_name with
    | Option.none =>
      ⟨Option.none, errDict ("Server \x27" ++ server_name ++ "\x27 not loaded"), st0⟩
    | some _ =>
      if w.pollDead then
        ⟨Option.none, errDict ("Server \x27" ++ server_name ++ "\x27 process terminated"),
         { st0 with
            server_processes := dictRemove st0.server_processes server_name,
            server_tools := dictRemove st0.server_tools server_name }⟩
      else
        let call_id := w.clockMs
        let request : PyVal := callRequest tool_name parameters call_id
        let callExc : PyVal := errDict ("Failed to call tool: " ++ w.excMsg)
        if !w.selectReady then
          ⟨some request, errDict "Tool call timed out after 5 seconds", st0⟩
        else if w.responseLine = "" then
          ⟨some request, errDict "No response from server", st0⟩
        else
          match json_loads w.responseLine with
          | Option.none => ⟨some request, callExc, st0⟩
          | some response =>
            match pyIn "result" response with
            | Option.none => ⟨some request, callExc, st0⟩
            | some true =>
              (match pyIndexStr response "result" with
               | Option.none => ⟨some request, callExc, st0⟩
               | some result =>
                 match unwrapResult result with
                 | some v => ⟨some request, v, st0⟩
                 | Option.none => ⟨some request, callExc, st0⟩)
            | some false =>
              match pyIn "error" response with
              | Option.none => ⟨some request, callExc, st0⟩
              | some true =>
                (match pyIndexStr response "error" with
                 | Option.none => ⟨some request, callExc, st0⟩
                 | some (PyVal.dict ed) =>
                   ⟨some request,
                    PyVal.dict [("success", PyVal.bool false),
                      ("error", (dictGet ed "message").getD (PyVal.str "Unknown error"))],
                    st0⟩
                 | some _ => ⟨some request, callExc, st0⟩)
              | some false =>
                ⟨some request, errDict "Invalid response from server", st0⟩

/-- Observations of one `terminate`/`wait` attempt (lines 374-376 and
482-484): whether it raised (e.g. `TimeoutExpired`), and the `str(e)`. -/
structure TermBehavior where
  termRaises : Bool
  excMsg : String

/-- `unload_server` (lines 356-391): not-loaded error, or terminate the
child and delete BOTH map entries; if terminate/wait raises, the except
branch returns an error with both entries still in place. -/
def unload_server (tb : TermBehavior) (st : LoaderState) (server_name : String) :
    PyVal × LoaderState :=
  if (dictGet st.server_processes server_name).isNone then
    (errDict ("Server \x27" ++ server_name ++ "\x27 not loaded"), st)
  else if tb.termRaises then
    (errDict ("Failed to unload server: " ++ tb.excMsg), st)
  else
    (PyVal.dict
      [("success", PyVal.bool true),
       ("message", PyVal.str ("Server \x27" ++ server_name ++ "\x27 unloaded successfully"))],
     { st with
        server_processes := dictRemove st.server_processes server_name,
        server_tools := dictRemove st.server_tools server_name })

/-- `is_server_loaded` (lines 44-47). -/
def is_server_loaded (st : LoaderState) (server_name : String) : Bool :=
  (dictGet st.server_processes server_name).isSome

/-- `reload_server` (lines 393-410): unload if loaded (propagating its
failure), then load. -/
def reload_server (mcpServers : List (String × PyVal)) (sb : SpawnBehavior)
    (tb : TermBehavior) (st : LoaderState) (server_name : String) : PyVal × LoaderState :=
  if is_server_loaded st server_name then
    let u := unload_server tb st server_name
    if !resultSuccess u.1 then u
    else load_server mcpServers sb u.2 server_name
  else load_server mcpServers sb st server_name

/-- `refresh_tools` (lines 436-475): not-loaded error, dead-child error
(state untouched in both), otherwise re-run discovery and replace the
catalog entry; `_discover_tools` cannot raise, so the except branch at
line 471 is unreachable. -/
def refresh_tools (sb : SpawnBehavior) (pollDead : Bool) (st : LoaderState)
    (server_name : String) : PyVal × LoaderState :=
  if (dictGet st.server_processes server_name).isNone then
    (errDict ("Server \x27" ++ server_name ++ "\x27 not loaded"), st)
  else if pollDead then
    (errDict ("Server \x27" ++ server_name ++ "\x27 process terminated"), st)
  else
    let tools := _discover_tools sb
    (PyVal.dict
      [("success", PyVal.bool true),
       ("server_name", PyVal.str server_name),
       ("tools", PyVal.list (dictKeys tools)),
       ("tool_count", PyVal.int (Int.ofNat tools.length))],
     { st with server_tools := dictAssign st.server_tools server_name tools })

/-- `cleanup` (lines 477-489): terminate every child (failures swallowed),
then clear both maps. -/
def cleanup (st : LoaderState) : LoaderState :=
  { st with server_processes := [], server_tools := [] }

/-! ### ToolSearcher (`src/utils/tool_searcher.py`) -/

/-- Fields read out of a tool-schema dict by the searcher
(`tool_info.get("description", "")` and the like); schemas built by
`_discover_tools` are always dicts. -/
def infoGet (info : PyVal) (k : String) (dflt : PyVal) : PyVal :=
  match info with
  | PyVal.dict d => (dictGet d k).getD dflt
  | _ => dflt

/-- `ToolSearcher._get_all_tools` (lines 27-52): iterate the loaded servers
in registry (insertion) order — `get_loaded_servers` walks
`server_processes.items()` — and for each server assign every tool of its
catalog into one flat dict keyed by tool name, each value carrying the
owning server. A later assignment of the same tool name overwrites the
earlier one. -/
def _get_all_tools (st : LoaderState) : List (PyVal × PyVal) :=
  (dictKeys st.server_processes).foldl
    (fun all_tools server_name =>
      ((dictGet st.server_tools server_name).getD []).foldl
        (fun acc kv =>
          dictAssign acc kv.1 (PyVal.dict
            [("name", kv.1),
             ("server", PyVal.str server_name),
             ("description", infoGet kv.2 "description" (PyVal.str "")),
             ("inputSchema", infoGet kv.2 "inputSchema" (PyVal.dict []))]))
        all_tools)
    []

/-- `ToolSearcher.get_tool_info` (lines 101-112): a lookup in the flat
dict built by `_get_all_tools`; `None` when absent. -/
def get_tool_info (st : LoaderState) (tool_name : String) : Option PyVal :=
  dictGet (_get_all_tools st) (PyVal.str tool_name)


/-! ### The registry/catalog key invariant and concrete fixtures -/

/-- Every provider name with a tool-catalog entry also has a process
entry. -/
def RegInv (st : LoaderState) : Prop :=
  ∀ n, n ∈ dictKeys st.server_tools → n ∈ dictKeys st.server_processes

/-- A one-provider configuration, scenario S1 of the spec. -/
def cfgEcho : List (String × PyVal) :=
  [("echo", PyVal.dict
    [("command", PyVal.str "fake"), ("args", PyVal.list [PyVal.str "--echo"])])]

/-- A well-behaved child: clean spawn, successful handshake, one tool
`ping` discovered. -/
def sbEcho : SpawnBehavior :=
  { spawnRaises := false
    earlyExit := false
    initLine := "\x7b\"jsonrpc\": \"2.0\", \"id\": 1, \"result\": \x7b\x7d\x7d"
    listLine := "\x7b\"jsonrpc\": \"2.0\", \"id\": 2, \"result\": \x7b\"tools\": [\x7b\"name\": \"ping\", \"description\": \"reply pong\", \"inputSchema\": \x7b\x7d\x7d]\x7d\x7d"
    excMsg := "" }

/-- A child whose `initialize` response carries an `error` object, i.e. a
failed handshake (scenario S3). -/
def sbBadInit : SpawnBehavior :=
  { spawnRaises := false
    earlyExit := false
    initLine := "\x7b\"jsonrpc\": \"2.0\", \"id\": 1, \"error\": \x7b\"code\": -1, \"message\": \"boom\"\x7d\x7d"
    listLine := ""
    excMsg := "" }

def emptyState : LoaderState := { server_processes := [], server_tools := [], spawns := 0 }

def pingSchema : PyVal :=
  PyVal.dict [("description", PyVal.str "reply pong"), ("inputSchema", PyVal.dict [])]

/-- The registry after `load_server cfgEcho sbEcho emptyState "echo"`. -/
def loadedState : LoaderState :=
  { server_processes := [("echo", { pid := 0 })]
    server_tools := [("echo", [(PyVal.str "ping", pingSchema)])]
    spawns := 1 }

/-- A live, prompt child answering with text content `pong` under response
id 1000, observed at clock 1000 ms. -/
def wPong : CallWorld :=
  { pollDead := false
    clockMs := 1000
    selectReady := true
    responseLine := "\x7b\"jsonrpc\": \"2.0\", \"id\": 1000, \"result\": \x7b\"content\": [\x7b\"type\": \"text\", \"text\": \"pong\"\x7d]\x7d\x7d"
    excMsg := "" }

/-- Same child, but the response read carries id 999 while the clock (and
hence the allocated request id) is 1000. -/
def wLateId : CallWorld :=
  { pollDead := false
    clockMs := 1000
    selectReady := true
    responseLine := "\x7b\"jsonrpc\": \"2.0\", \"id\": 999, \"result\": \x7b\"content\": [\x7b\"type\": \"text\", \"text\": \"pong\"\x7d]\x7d\x7d"
    excMsg := "" }

/-- A child answering with JSON text content `{"n": 42}` (scenario S2). -/
def wJson : CallWorld :=
  { pollDead := false
    clockMs := 1000
    selectReady := true
    responseLine := "\x7b\"jsonrpc\": \"2.0\", \"id\": 1000, \"result\": \x7b\"content\": [\x7b\"type\": \"text\", \"text\": \"\x7b\\\"n\\\": 42\x7d\"\x7d]\x7d\x7d"
    excMsg := "" }

/-- A child that never answers: `select` times out (scenario S4). -/
def wTimeout : CallWorld :=
  { pollDead := false
    clockMs := 1000
    selectReady := false
    responseLine := ""
    excMsg := "" }

/-- The `wPong` world observed one millisecond later. -/
def wLater : CallWorld :=
  { pollDead := false
    clockMs := 1001
    selectReady := true
    responseLine := "\x7b\"jsonrpc\": \"2.0\", \"id\": 1001, \"result\": \x7b\"content\": [\x7b\"type\": \"text\", \"text\": \"pong\"\x7d]\x7d\x7d"
    excMsg := "" }

/-- Providers `a` and `b`, loaded in that order, both exposing tool `t`. -/
def stAB : LoaderState :=
  { server_processes := [("a", { pid := 0 }), ("b", { pid := 1 })]
    server_tools :=
      [("a", [(PyVal.str "t", PyVal.dict
        [("description", PyVal.str "from a"), ("inputSchema", PyVal.dict [])])]),
       ("b", [(PyVal.str "t", PyVal.dict
        [("description", PyVal.str "from b"), ("inputSchema", PyVal.dict [])])])]
    spawns := 2 }

/-- The same two providers loaded in the opposite order. -/
def stBA : LoaderState :=
  { server_processes := [("b", { pid := 0 }), ("a", { pid := 1 })]
    server_tools :=
      [("b", [(PyVal.str "t", PyVal.dict
        [("description", PyVal.str "from b"), ("inputSchema", PyVal.dict [])])]),
       ("a", [(PyVal.str "t", PyVal.dict
        [("description", PyVal.str "from a"), ("inputSchema", PyVal.dict [])])])]
    spawns := 2 }

/-! ### The registry lock around `call_tool`

`call_tool`'s entire body sits inside `with self.lock:` (line 250): the
single registry `RLock` created at line 30 is acquired on entry, held
across the 5-second `select` wait on the child's stdout (line 295), and
released only on exit. `call_tool_steps` is that control-flow skeleton;
a two-thread small-step semantics over it shows the consequence for
concurrent calls. -/

inductive LockStep where
  | acquire : LockStep
  | release : LockStep
  | waitStdout : LockStep
  | work : LockStep
  deriving DecidableEq, Repr

/-- The skeleton of `call_tool` with respect to `self.lock`: enter the
`with` block, frame and write the request, wait on `select`, read and
dispatch the response, leave the block. -/
def call_tool_steps : List LockStep :=
  [LockStep.acquire, LockStep.work, LockStep.waitStdout, LockStep.work, LockStep.release]

/-- Net lock depth after executing a sequence of steps. -/
def lockDepthAfter (tr : List LockStep) : Int :=
  tr.foldl
    (fun d s =>
      match s with
      | LockStep.acquire => d + 1
      | LockStep.release => d - 1
      | _ => d)
    0

/-- Whether the lock is held when the step at position `i` executes. -/
def lockHeldBefore (tr : List LockStep) (i : Nat) : Bool :=
  lockDepthAfter (tr.take i) > 0

/-- The spec sentence as a predicate on a control-flow skeleton: no stdout
wait executes while the registry lock is held. -/
def neverHeldAcrossWait (tr : List LockStep) : Prop :=
  ∀ i : Fin tr.length, tr.get i = LockStep.waitStdout → lockHeldBefore tr i = false

instance (tr : List LockStep) : Decidable (neverHeldAcrossWait tr) := by
  unfold neverHeldAcrossWait; infer_instance

/-- Two concurrent `call_tool` invocations (thread `true` on provider A,
thread `false` on provider B), each executing `call_tool_steps`, sharing
the one registry lock. `owner` is which thread currently holds it. -/
structure TwoCalls where
  pcA : Nat
  pcB : Nat
  owner : Option Bool
  deriving DecidableEq, Repr

/-- Whether thread `tid` can execute step `s`: acquiring the reentrant
lock requires it free or already owned by `tid`; everything else runs. -/
def canExec (owner : Option Bool) (tid : Bool) (s : LockStep) : Bool :=
  match s with
  | LockStep.acquire => owner = Option.none || owner = some tid
  | _ => true

/-- Lock-ownership effect of thread `tid` executing step `s` (each thread
acquires once, so release frees the lock). -/
def execEff (owner : Option Bool) (tid : Bool) (s : LockStep) : Option Bool :=
  match s with
  | LockStep.acquire => some tid
  | LockStep.release => Option.none
  | _ => owner

/-- Interleaving semantics: either thread executes its next step of
`call_tool_steps` when the lock discipline allows it. -/
inductive TStep : TwoCalls → TwoCalls → Prop where
  | stepA (st : TwoCalls) (s : LockStep) :
      call_tool_steps.get? st.pcA = some s →
      canExec st.owner true s = true →
      TStep st ⟨st.pcA + 1, st.pcB, execEff st.owner true s⟩
  | stepB (st : TwoCalls) (s : LockStep) :
      call_tool_steps.get? st.pcB = some s →
      canExec st.owner false s = true →
      TStep st ⟨st.pcA, st.pcB + 1, execEff st.owner false s⟩

/-- States reachable from both calls not yet started, lock free. -/
def ReachableTwo (st : TwoCalls) : Prop :=
  Relation.ReflTransGen TStep ⟨0, 0, Option.none⟩ st

/-- A thread whose pc is strictly between its `acquire` and its `release`
is inside its `with self.lock:` block. -/
def inBody (pc : Nat) : Prop := 1 ≤ pc ∧ pc ≤ 4

instance (pc : Nat) : Decidable (inBody pc) := by unfold inBody; infer_instance

/-- Inductive invariant of the two-call system: pcs stay in range, and a
thread inside its `with` block owns the lock. -/
def LockInv (st : TwoCalls) : Prop :=
  st.pcA ≤ 5 ∧ st.pcB ≤ 5 ∧
    (inBody st.pcA → st.owner = some true) ∧ (inBody st.pcB → st.owner = some false)

lemma lockInv_of_reachable : ∀ st : TwoCalls, ReachableTwo st → LockInv st := by
  intro st h
  induction h with
  | refl =>
    unfold LockInv
    exact ⟨by decide, by decide, by decide, by decide⟩
  | @tail b c hab hbc ih =>
    cases hbc with
    | stepA s hget hcan =>
      rcases b with ⟨pa, pb, ow⟩
      obtain ⟨hA, hB, hoa, hob⟩ := ih
      dsimp only at hget hcan hoa hob ⊢
      have hlt : pa < 5 := by
        by_contra hc
        push_neg at hc
        rw [List.get?_eq_none.mpr (by simpa [call_tool_steps] using hc)] at hget
        cases hget
      unfold LockInv
      dsimp only
      interval_cases pa
      · simp [call_tool_steps] at hget
        subst hget
        simp only [canExec, Bool.or_eq_true, decide_eq_true_eq] at hcan
        refine ⟨by omega, hB, fun _ => rfl, fun hb => ?_⟩
        have hx := hob hb
        rcases hcan with hc | hc <;> simp_all
      · simp [call_tool_steps] at hget
        subst hget
        exact ⟨by omega, hB, fun _ => hoa (by decide), hob⟩
      · simp [call_tool_steps] at hget
        subst hget
        exact ⟨by omega, hB, fun _ => hoa (by decide), hob⟩
      · simp [call_tool_steps] at hget
        subst hget
        exact ⟨by omega, hB, fun _ => hoa (by decide), hob⟩
      · simp [call_tool_steps] at hget
        subst hget
        refine ⟨by omega, hB, fun hh => absurd hh (by decide), fun hb => ?_⟩
        have h1 := hoa (by decide)
        have h2 := hob hb
        rw [h1] at h2
        exact absurd (Option.some.inj h2) (by simp)
    | stepB s hget hcan =>
      rcases b with ⟨pa, pb, ow⟩
      obtain ⟨hA, hB, hoa, hob⟩ := ih
      dsimp only at hget hcan hoa hob ⊢
      have hlt : pb < 5 := by
        by_contra hc
        push_neg at hc
        rw [List.get?_eq_none.mpr (by simpa [call_tool_steps] using hc)] at hget
        cases hget
      unfold LockInv
      dsimp only
      interval_cases pb
      · simp [call_tool_steps] at hget
        subst hget
        simp only [canExec, Bool.or_eq_true, decide_eq_true_eq] at hcan
        refine ⟨hA, by omega, fun ha => ?_, fun _ => rfl⟩
        have hx := hoa ha
        rcases hcan with hc | hc <;> simp_all
      · simp [call_tool_steps] at hget
        subst hget
        exact ⟨hA, by omega, hoa, fun _ => hob (by decide)⟩
      · simp [call_tool_steps] at hget
        subst hget
        exact ⟨hA, by omega, hoa, fun _ => hob (by decide)⟩
      · simp [call_tool_steps] at hget
        subst hget
        exact ⟨hA, by omega, hoa, fun _ => hob (by decide)⟩
      · simp [call_tool_steps] at hget
        subst hget
        refine ⟨hA, by omega, fun ha => ?_, fun hh => absurd hh (by decide)⟩
        have h1 := hob (by decide)
        have h2 := hoa ha
        rw [h1] at h2
        exact absurd (Option.some.inj h2) (by simp)

/-! ### Association-list lemmas -/

lemma dictGet_dictAssign_self {κ α : Type} [DecidableEq κ] (d : List (κ × α)) (k : κ) (v : α) :
    dictGet (dictAssign d k v) k = some v := by
  induction d with
  | nil => simp [dictAssign, dictGet]
  | cons kv rest ih =>
    obtain ⟨k2, w⟩ := kv
    by_cases h : k2 = k
    · subst h
      simp [dictAssign, dictGet]
    · simp [dictAssign, dictGet, h, ih]

lemma mem_dictKeys_dictAssign {κ α : Type} [DecidableEq κ] (d : List (κ × α)) (k a : κ) (v : α) :
    a ∈ dictKeys (dictAssign d k v) ↔ a = k ∨ a ∈ dictKeys d := by
  induction d with
  | nil =>
    have h1 : dictAssign ([] : List (κ × α)) k v = [(k, v)] := rfl
    have h2 : dictKeys [(k, v)] = [k] := rfl
    rw [h1, h2, List.mem_singleton]
    constructor
    · exact Or.inl
    · rintro (h | h)
      · exact h
      · exact absurd h (List.not_mem_nil a)
  | cons kv rest ih =>
    obtain ⟨k2, w⟩ := kv
    by_cases h : k2 = k
    · subst h
      have hstep : dictAssign ((k2, w) :: rest) k2 v = (k2, v) :: rest := by
        simp [dictAssign]
      have h1 : dictKeys ((k2, v) :: rest) = k2 :: dictKeys rest := rfl
      have h2 : dictKeys ((k2, w) :: rest) = k2 :: dictKeys rest := rfl
      rw [hstep, h1, h2, List.mem_cons]
      tauto
    · have hstep : dictAssign ((k2, w) :: rest) k v = (k2, w) :: dictAssign rest k v := by
        simp [dictAssign, h]
      have h1 : dictKeys ((k2, w) :: dictAssign rest k v) =
          k2 :: dictKeys (dictAssign rest k v) := rfl
      have h2 : dictKeys ((k2, w) :: rest) = k2 :: dictKeys rest := rfl
      rw [hstep, h1, h2, List.mem_cons, List.mem_cons, ih]
      tauto

lemma mem_dictKeys_dictRemove {κ α : Type} [DecidableEq κ] (d : List (κ × α)) (k a : κ) :
    a ∈ dictKeys (dictRemove d k) ↔ a ∈ dictKeys d ∧ a ≠ k := by
  induction d with
  | nil =>
    constructor
    · intro hx
      exact absurd hx (List.not_mem_nil a)
    · rintro ⟨hx, _⟩
      exact absurd hx (List.not_mem_nil a)
  | cons kv rest ih =>
    obtain ⟨k2, w⟩ := kv
    have hk : dictKeys ((k2, w) :: rest) = k2 :: dictKeys rest := rfl
    by_cases h : k2 = k
    · subst h
      have hstep : dictRemove ((k2, w) :: rest) k2 = dictRemove rest k2 := by
        simp [dictRemove]
      rw [hstep, ih, hk, List.mem_cons]
      constructor
      · rintro ⟨hm, hne⟩
        exact ⟨Or.inr hm, hne⟩
      · rintro ⟨hm | hm, hne⟩
        · exact absurd hm hne
        · exact ⟨hm, hne⟩
    · have hstep : dictRemove ((k2, w) :: rest) k = (k2, w) :: dictRemove rest k := by
        simp [dictRemove, h]
      have h1 : dictKeys ((k2, w) :: dictRemove rest k) =
          k2 :: dictKeys (dictRemove rest k) := rfl
      rw [hstep, h1, hk, List.mem_cons, List.mem_cons, ih]
      constructor
      · rintro (rfl | ⟨hm, hne⟩)
        · exact ⟨Or.inl rfl, h⟩
        · exact ⟨Or.inr hm, hne⟩
      · rintro ⟨rfl | hm, hne⟩
        · exact Or.inl rfl
        · exact Or.inr ⟨hm, hne⟩

/-! ### Preservation of the registry/catalog key invariant -/

lemma load_server_preserves_RegInv (mcp : List (String × PyVal)) (sb : SpawnBehavior)
    (st : LoaderState) (name : String) (h : RegInv st) :
    RegInv (load_server mcp sb st name).2 := by
  unfold load_server
  split
  · exact h
  · split
    · exact h
    · split
      · exact h
      · split
        · split
          · exact h
          · split
            · exact h
            · intro n hn
              dsimp only at hn ⊢
              rcases (mem_dictKeys_dictAssign _ _ _ _).mp hn with rfl | hmem
              · exact (mem_dictKeys_dictAssign _ _ _ _).mpr (Or.inl rfl)
              · exact (mem_dictKeys_dictAssign _ _ _ _).mpr (Or.inr (h n hmem))
        · exact h

lemma mem_dictKeys_of_dictGet_isSome {κ α : Type} [DecidableEq κ] (d : List (κ × α)) (k : κ)
    (h : (dictGet d k).isSome = true) : k ∈ dictKeys d := by
  induction d with
  | nil => simp [dictGet] at h
  | cons kv rest ih =>
    obtain ⟨k2, v⟩ := kv
    by_cases he : k2 = k
    · subst he
      exact List.mem_cons_self _ _
    · rw [show dictKeys ((k2, v) :: rest) = k2 :: dictKeys rest from rfl, List.mem_cons]
      right
      apply ih
      simpa [dictGet, he] using h

lemma call_tool_preserves_RegInv (mcp : List (String × PyVal)) (sb : SpawnBehavior)
    (w : CallWorld) (st : LoaderState) (sn tn : String)
    (p : Option (List (String × PyVal))) (h : RegInv st) :
    RegInv (call_tool mcp sb w st sn tn p).state := by
  unfold call_tool
  dsimp only
  split
  · have hA : RegInv (load_server mcp sb st sn).2 := load_server_preserves_RegInv _ _ _ _ h
    repeat' split
    all_goals first
      | exact hA
      | (intro n hn
         dsimp only at hn ⊢
         have hx := (mem_dictKeys_dictRemove _ _ _).mp hn
         exact (mem_dictKeys_dictRemove _ _ _).mpr ⟨hA n hx.1, hx.2⟩)
  · repeat' split
    all_goals first
      | exact h
      | (intro n hn
         dsimp only at hn ⊢
         have hx := (mem_dictKeys_dictRemove _ _ _).mp hn
         exact (mem_dictKeys_dictRemove _ _ _).mpr ⟨h n hx.1, hx.2⟩)

lemma unload_server_preserves_RegInv (tb : TermBehavior) (st : LoaderState) (name : String)
    (h : RegInv st) : RegInv (unload_server tb st name).2 := by
  unfold unload_server
  split
  · exact h
  · split
    · exact h
    · intro n hn
      dsimp only at hn ⊢
      have hx := (mem_dictKeys_dictRemove _ _ _).mp hn
      exact (mem_dictKeys_dictRemove _ _ _).mpr ⟨h n hx.1, hx.2⟩

lemma reload_server_preserves_RegInv (mcp : List (String × PyVal)) (sb : SpawnBehavior)
    (tb : TermBehavior) (st : LoaderState) (name : String) (h : RegInv st) :
    RegInv (reload_server mcp sb tb st name).2 := by
  unfold reload_server
  split
  · dsimp only
    split
    · exact unload_server_preserves_RegInv _ _ _ h
    · exact load_server_preserves_RegInv _ _ _ _ (unload_server_preserves_RegInv _ _ _ h)
  · exact load_server_preserves_RegInv _ _ _ _ h

lemma refresh_tools_preserves_RegInv (sb : SpawnBehavior) (pd : Bool) (st : LoaderState)
    (name : String) (h : RegInv st) : RegInv (refresh_tools sb pd st name).2 := by
  unfold refresh_tools
  split
  · exact h
  · rename_i hcond
    split
    · exact h
    · intro n hn
      dsimp only at hn ⊢
      rcases (mem_dictKeys_dictAssign _ _ _ _).mp hn with rfl | hmem
      · apply mem_dictKeys_of_dictGet_isSome
        rcases hx : dictGet st.server_processes n with _ | proc
        · rw [hx] at hcond
          simp [Option.isNone] at hcond
        · rfl
      · exact h n hmem

/-! ### The live-session path through `call_tool` -/

lemma call_tool_sent_live (mcp : List (String × PyVal)) (sb : SpawnBehavior) (w : CallWorld)
    (st : LoaderState) (sn tn : String) (p : Option (List (String × PyVal))) (proc : Subproc)
    (hp : dictGet st.server_processes sn = some proc) (halive : w.pollDead = false) :
    (call_tool mcp sb w st sn tn p).sent = some (callRequest tn p w.clockMs) := by
  unfold call_tool
  have hrs : resultSuccess (PyVal.dict [("success", PyVal.bool true)]) = true := rfl
  simp only [hp, Option.isNone_some, Bool.false_eq_true, if_false, hrs, Bool.not_true, halive]
  repeat' split
  all_goals rfl

lemma call_tool_timeout (mcp : List (String × PyVal)) (sb : SpawnBehavior) (w : CallWorld)
    (st : LoaderState) (sn tn : String) (p : Option (List (String × PyVal))) (proc : Subproc)
    (hp : dictGet st.server_processes sn = some proc) (halive : w.pollDead = false)
    (hsel : w.selectReady = false) :
    (call_tool mcp sb w st sn tn p).ret = errDict "Tool call timed out after 5 seconds" ∧
    (call_tool mcp sb w st sn tn p).state = st := by
  unfold call_tool
  have hrs : resultSuccess (PyVal.dict [("success", PyVal.bool true)]) = true := rfl
  simp only [hp, Option.isNone_some, Bool.false_eq_true, if_false, hrs, Bool.not_true,
    halive, hsel, Bool.not_false, if_true]
  exact ⟨trivial, trivial⟩

lemma call_tool_ret_of_result (mcp : List (String × PyVal)) (sb : SpawnBehavior) (w : CallWorld)
    (st : LoaderState) (sn tn : String) (p : Option (List (String × PyVal))) (proc : Subproc)
    (resp result : PyVal)
    (hp : dictGet st.server_processes sn = some proc) (halive : w.pollDead = false)
    (hsel : w.selectReady = true) (hne : w.responseLine ≠ "")
    (hresp : json_loads w.responseLine = some resp)
    (hr : pyIn "result" resp = some true)
    (hres : pyIndexStr resp "result" = some result) :
    (call_tool mcp sb w st sn tn p).ret =
      (match unwrapResult result with
       | some v => v
       | Option.none => errDict ("Failed to call tool: " ++ w.excMsg)) ∧
    (call_tool mcp sb w st sn tn p).state = st := by
  unfold call_tool
  have hrs : resultSuccess (PyVal.dict [("success", PyVal.bool true)]) = true := rfl
  simp only [hp, Option.isNone_some, Bool.false_eq_true, if_false, hrs, Bool.not_true,
    halive, hsel, Bool.not_false, if_true, hne, hresp, hr, hres]
  cases unwrapResult result <;> exact ⟨rfl, rfl⟩

/-! ### Evaluation lemmas for `load_server` and the dead-child path -/

lemma load_server_already_loaded (mcp : List (String × PyVal)) (sb : SpawnBehavior)
    (st : LoaderState) (name : String) (proc : Subproc)
    (hp : dictGet st.server_processes name = some proc) :
    load_server mcp sb st name =
      (PyVal.dict
        [("success", PyVal.bool true),
         ("message", PyVal.str ("Server \x27" ++ name ++ "\x27 already loaded")),
         ("tools", PyVal.list (dictKeys ((dictGet st.server_tools name).getD [])))], st) := by
  unfold load_server
  rw [hp]
  rfl

lemma load_server_fresh (mcp : List (String × PyVal)) (sb : SpawnBehavior)
    (st : LoaderState) (name : String) (cfgd : List (String × PyVal))
    (hnl : dictGet st.server_processes name = Option.none)
    (hcfg : dictGet mcp name = some (PyVal.dict cfgd)) (htr : cfgd ≠ [])
    (hspawn : sb.spawnRaises = false) (hexit : sb.earlyExit = false) :
    load_server mcp sb st name =
      (PyVal.dict
        [("success", PyVal.bool true),
         ("message", PyVal.str ("Server \x27" ++ name ++ "\x27 loaded successfully")),
         ("server_name", PyVal.str name),
         ("tools", PyVal.list (dictKeys (_discover_tools sb))),
         ("tool_count", PyVal.int (Int.ofNat (_discover_tools sb).length))],
       { server_processes := dictAssign st.server_processes name { pid := st.spawns }
         server_tools := dictAssign st.server_tools name (_discover_tools sb)
         spawns := st.spawns + 1 }) := by
  obtain ⟨sr, ee, il, ll, em⟩ := sb
  dsimp only at hspawn hexit
  subst hspawn
  subst hexit
  have htv : truthy (PyVal.dict cfgd) = true := by
    cases cfgd with
    | nil => exact absurd rfl htr
    | cons a b => rfl
  unfold load_server
  rw [hnl, hcfg]
  dsimp only
  rw [htv]
  rfl

lemma call_tool_dead (mcp : List (String × PyVal)) (sb : SpawnBehavior) (w : CallWorld)
    (st : LoaderState) (sn tn : String) (p : Option (List (String × PyVal))) (proc : Subproc)
    (hp : dictGet st.server_processes sn = some proc) (hpd : w.pollDead = true) :
    (call_tool mcp sb w st sn tn p).ret =
      errDict ("Server \x27" ++ sn ++ "\x27 process terminated") ∧
    (call_tool mcp sb w st sn tn p).state =
      { st with server_processes := dictRemove st.server_processes sn,
                server_tools := dictRemove st.server_tools sn } := by
  unfold call_tool
  have hrs : resultSuccess (PyVal.dict [("success", PyVal.bool true)]) = true := rfl
  simp only [hp, Option.isNone_some, Bool.false_eq_true, if_false, hrs, Bool.not_true,
    hpd, if_true]
  exact ⟨trivial, trivial⟩

/-! ### Claim theorems -/

/-- C1 counterexample: with a configured provider whose handshake fails
(the `initialize` response carries an `error` object), `load_server`
nevertheless returns `success: true` — not a HandshakeError failure — and
the registry retains a session for the name, with an empty catalog; a
second load answers already-loaded instead of spawning afresh. -/
theorem C1_counterexample :
    resultSuccess (load_server cfgEcho sbBadInit emptyState "echo").1 = true ∧
    dictGet (load_server cfgEcho sbBadInit emptyState "echo").2.server_processes "echo" =
      some { pid := 0 } ∧
    dictGet (load_server cfgEcho sbBadInit emptyState "echo").2.server_tools "echo" = some [] ∧
    pyIndexStr
      (load_server cfgEcho sbBadInit
        (load_server cfgEcho sbBadInit emptyState "echo").2 "echo").1 "message" =
      some (PyVal.str "Server \x27echo\x27 already loaded") :=
  ⟨rfl, rfl, rfl, rfl⟩

/-- C1 (amended): when the handshake fails on a fresh spawn of a configured
provider, `load_server` returns success with an EMPTY tool list, the
registry RETAINS the session (with an empty catalog), and an immediately
following `load_server` reports success without touching the state — no
fresh spawn is attempted. -/
theorem C1_handshake_failure_retains_session (mcp : List (String × PyVal))
    (sb : SpawnBehavior) (st : LoaderState) (name : String) (cfgd : List (String × PyVal))
    (hnl : dictGet st.server_processes name = Option.none)
    (hcfg : dictGet mcp name = some (PyVal.dict cfgd)) (htr : cfgd ≠ [])
    (hspawn : sb.spawnRaises = false) (hexit : sb.earlyExit = false)
    (hhs : _initialize_server sb = false) :
    resultSuccess (load_server mcp sb st name).1 = true ∧
    pyIndexStr (load_server mcp sb st name).1 "tools" = some (PyVal.list []) ∧
    dictGet (load_server mcp sb st name).2.server_processes name = some { pid := st.spawns } ∧
    dictGet (load_server mcp sb st name).2.server_tools name = some [] ∧
    resultSuccess (load_server mcp sb (load_server mcp sb st name).2 name).1 = true ∧
    (load_server mcp sb (load_server mcp sb st name).2 name).2 =
      (load_server mcp sb st name).2 := by
  have hd : _discover_tools sb = [] := by
    unfold _discover_tools
    rw [hhs]
    rfl
  rw [load_server_fresh mcp sb st name cfgd hnl hcfg htr hspawn hexit, hd]
  refine ⟨rfl, rfl, dictGet_dictAssign_self _ _ _, dictGet_dictAssign_self _ _ _, ?_, ?_⟩
  · rw [load_server_already_loaded mcp sb _ name { pid := st.spawns }
      (dictGet_dictAssign_self _ _ _)]
    rfl
  · rw [load_server_already_loaded mcp sb _ name { pid := st.spawns }
      (dictGet_dictAssign_self _ _ _)]

/-- C1 witness: the amended claim evaluated on the S3 scenario. -/
theorem C1_witness :
    resultSuccess (load_server cfgEcho sbBadInit emptyState "echo").1 = true ∧
    pyIndexStr (load_server cfgEcho sbBadInit emptyState "echo").1 "tools" =
      some (PyVal.list []) ∧
    dictGet (load_server cfgEcho sbBadInit emptyState "echo").2.server_processes "echo" =
      some { pid := 0 } ∧
    dictGet (load_server cfgEcho sbBadInit emptyState "echo").2.server_tools "echo" = some [] ∧
    resultSuccess
      (load_server cfgEcho sbBadInit
        (load_server cfgEcho sbBadInit emptyState "echo").2 "echo").1 = true ∧
    (load_server cfgEcho sbBadInit
        (load_server cfgEcho sbBadInit emptyState "echo").2 "echo").2 =
      (load_server cfgEcho sbBadInit emptyState "echo").2 :=
  C1_handshake_failure_retains_session cfgEcho sbBadInit emptyState "echo"
    [("command", PyVal.str "fake"), ("args", PyVal.list [PyVal.str "--echo"])]
    rfl rfl (by decide) rfl rfl rfl

/-- C8: `load` is idempotent. For a configured, not-yet-loaded provider
whose spawn succeeds, the first `load_server` succeeds and increments the
spawn count by exactly one; an immediately following `load_server` — with
ANY child behavior `sb2`, showing that no spawn, handshake or discovery is
re-run — succeeds, leaves the state (spawn count included) unchanged, and
reports the same tool list. -/
theorem C8_load_idempotent (mcp : List (String × PyVal)) (sb sb2 : SpawnBehavior)
    (st : LoaderState) (name : String) (cfgd : List (String × PyVal))
    (hnl : dictGet st.server_processes name = Option.none)
    (hcfg : dictGet mcp name = some (PyVal.dict cfgd)) (htr : cfgd ≠ [])
    (hspawn : sb.spawnRaises = false) (hexit : sb.earlyExit = false) :
    resultSuccess (load_server mcp sb st name).1 = true ∧
    resultSuccess (load_server mcp sb2 (load_server mcp sb st name).2 name).1 = true ∧
    (load_server mcp sb st name).2.spawns = st.spawns + 1 ∧
    (load_server mcp sb2 (load_server mcp sb st name).2 name).2 =
      (load_server mcp sb st name).2 ∧
    pyIndexStr (load_server mcp sb2 (load_server mcp sb st name).2 name).1 "tools" =
      pyIndexStr (load_server mcp sb st name).1 "tools" := by
  rw [load_server_fresh mcp sb st name cfgd hnl hcfg htr hspawn hexit]
  rw [load_server_already_loaded mcp sb2 _ name { pid := st.spawns }
    (dictGet_dictAssign_self _ _ _)]
  refine ⟨rfl, rfl, rfl, rfl, ?_⟩
  dsimp only
  rw [dictGet_dictAssign_self]
  rfl

/-- C8 witness: the idempotence of `load` evaluated on the S1 scenario. -/
theorem C8_witness :
    resultSuccess (load_server cfgEcho sbEcho emptyState "echo").1 = true ∧
    resultSuccess
      (load_server cfgEcho sbBadInit
        (load_server cfgEcho sbEcho emptyState "echo").2 "echo").1 = true ∧
    (load_server cfgEcho sbEcho emptyState "echo").2.spawns = emptyState.spawns + 1 ∧
    (load_server cfgEcho sbBadInit
        (load_server cfgEcho sbEcho emptyState "echo").2 "echo").2 =
      (load_server cfgEcho sbEcho emptyState "echo").2 ∧
    pyIndexStr
      (load_server cfgEcho sbBadInit
        (load_server cfgEcho sbEcho emptyState "echo").2 "echo").1 "tools" =
      pyIndexStr (load_server cfgEcho sbEcho emptyState "echo").1 "tools" :=
  C8_load_idempotent cfgEcho sbEcho sbBadInit emptyState "echo"
    [("command", PyVal.str "fake"), ("args", PyVal.list [PyVal.str "--echo"])]
    rfl rfl (by decide) rfl rfl

/-- C7: when the per-call 5-second `select` deadline elapses with no
response on a live, loaded session, `call_tool` returns the timeout error
and the session is left fully intact — the state is unchanged, the
process entry is still present and the tool catalog is untouched. -/
theorem C7_timeout_leaves_session_intact (mcp : List (String × PyVal)) (sb : SpawnBehavior)
    (w : CallWorld) (st : LoaderState) (sn tn : String)
    (p : Option (List (String × PyVal))) (proc : Subproc)
    (hp : dictGet st.server_processes sn = some proc) (halive : w.pollDead = false)
    (hsel : w.selectReady = false) :
    (call_tool mcp sb w st sn tn p).ret = errDict "Tool call timed out after 5 seconds" ∧
    (call_tool mcp sb w st sn tn p).state = st ∧
    dictGet (call_tool mcp sb w st sn tn p).state.server_processes sn = some proc ∧
    dictGet (call_tool mcp sb w st sn tn p).state.server_tools sn =
      dictGet st.server_tools sn := by
  have h := call_tool_timeout mcp sb w st sn tn p proc hp halive hsel
  refine ⟨h.1, h.2, ?_, ?_⟩
  · rw [h.2]
    exact hp
  · rw [h.2]

/-- C7 witness: the timeout behavior evaluated on the S4-style scenario. -/
theorem C7_witness :
    (call_tool cfgEcho sbEcho wTimeout loadedState "echo" "ping" Option.none).ret =
      errDict "Tool call timed out after 5 seconds" ∧
    (call_tool cfgEcho sbEcho wTimeout loadedState "echo" "ping" Option.none).state =
      loadedState ∧
    dictGet (call_tool cfgEcho sbEcho wTimeout loadedState "echo" "ping"
        Option.none).state.server_processes "echo" = some { pid := 0 } ∧
    dictGet (call_tool cfgEcho sbEcho wTimeout loadedState "echo" "ping"
        Option.none).state.server_tools "echo" = dictGet loadedState.server_tools "echo" :=
  C7_timeout_leaves_session_intact cfgEcho sbEcho wTimeout loadedState "echo" "ping"
    Option.none { pid := 0 } rfl rfl rfl

/-- C9: when the caller passes no parameters (Python `None`, the
argument's default), the `tools/call` frame written to the child carries
`arguments: {}` and the unchanged tool name, with method `tools/call`. -/
theorem C9_default_arguments (mcp : List (String × PyVal)) (sb : SpawnBehavior)
    (w : CallWorld) (st : LoaderState) (sn tn : String) (proc : Subproc)
    (hp : dictGet st.server_processes sn = some proc) (halive : w.pollDead = false) :
    (call_tool mcp sb w st sn tn Option.none).sent =
      some (callRequest tn Option.none w.clockMs) ∧
    pyIndexStr (callRequest tn Option.none w.clockMs) "params" =
      some (PyVal.dict [("name", PyVal.str tn), ("arguments", PyVal.dict [])]) ∧
    pyIndexStr (callRequest tn Option.none w.clockMs) "method" =
      some (PyVal.str "tools/call") :=
  ⟨call_tool_sent_live mcp sb w st sn tn Option.none proc hp halive, rfl, rfl⟩

/-- C9 witness: the default-arguments frame evaluated on the S1 call. -/
theorem C9_witness :
    (call_tool cfgEcho sbEcho wPong loadedState "echo" "ping" Option.none).sent =
      some (callRequest "ping" Option.none wPong.clockMs) ∧
    pyIndexStr (callRequest "ping" Option.none wPong.clockMs) "params" =
      some (PyVal.dict [("name", PyVal.str "ping"), ("arguments", PyVal.dict [])]) ∧
    pyIndexStr (callRequest "ping" Option.none wPong.clockMs) "method" =
      some (PyVal.str "tools/call") :=
  C9_default_arguments cfgEcho sbEcho wPong loadedState "echo" "ping" { pid := 0 } rfl rfl

/-- C2 counterexample: the session allocates and writes request id 1000
(the clock), the line then read carries id 999, yet `call_tool` returns
that response's unwrapped content as a non-error result — the mismatched
id is not discarded. -/
theorem C2_counterexample :
    (call_tool cfgEcho sbEcho wLateId loadedState "echo" "ping" Option.none).sent =
      some (callRequest "ping" Option.none 1000) ∧
    pyIndexStr (callRequest "ping" Option.none 1000) "id" = some (PyVal.int 1000) ∧
    (json_loads wLateId.responseLine).map (fun r => pyIndexStr r "id") =
      some (some (PyVal.int 999)) ∧
    (call_tool cfgEcho sbEcho wLateId loadedState "echo" "ping" Option.none).ret =
      PyVal.dict [("success", PyVal.bool true), ("result", PyVal.str "pong")] ∧
    resultSuccess
      (call_tool cfgEcho sbEcho wLateId loadedState "echo" "ping" Option.none).ret = true ∧
    (999 : Int) ≠ 1000 :=
  ⟨rfl, rfl, rfl, rfl, rfl, by decide⟩

/-- C2 (amended): `call_tool` returns the unwrapped payload of whatever
line is read next from the child, with NO comparison of that response's
id against the id it allocated: the hypotheses constrain only the shape
of the read response, never its id, and the returned value is determined
by the response content alone. -/
theorem C2_id_unchecked (mcp : List (String × PyVal)) (sb : SpawnBehavior) (w : CallWorld)
    (st : LoaderState) (sn tn : String) (p : Option (List (String × PyVal)))
    (proc : Subproc) (resp result v : PyVal)
    (hp : dictGet st.server_processes sn = some proc) (halive : w.pollDead = false)
    (hsel : w.selectReady = true) (hne : w.responseLine ≠ "")
    (hresp : json_loads w.responseLine = some resp)
    (hr : pyIn "result" resp = some true)
    (hres : pyIndexStr resp "result" = some result)
    (hv : unwrapResult result = some v) :
    (call_tool mcp sb w st sn tn p).ret = v ∧
    (call_tool mcp sb w st sn tn p).state = st := by
  have h := call_tool_ret_of_result mcp sb w st sn tn p proc resp result hp halive hsel
    hne hresp hr hres
  rw [hv] at h
  exact h

/-- C2 witness: the amended claim evaluated at the id-999 response paired
with the id-1000 request. -/
theorem C2_witness :
    (call_tool cfgEcho sbEcho wLateId loadedState "echo" "ping" Option.none).ret =
      PyVal.dict [("success", PyVal.bool true), ("result", PyVal.str "pong")] ∧
    (call_tool cfgEcho sbEcho wLateId loadedState "echo" "ping" Option.none).state =
      loadedState :=
  C2_id_unchecked cfgEcho sbEcho wLateId loadedState "echo" "ping" Option.none { pid := 0 }
    (PyVal.dict
      [("jsonrpc", PyVal.str "2.0"), ("id", PyVal.int 999),
       ("result", PyVal.dict [("content", PyVal.list
         [PyVal.dict [("type", PyVal.str "text"), ("text", PyVal.str "pong")]])])])
    (PyVal.dict [("content", PyVal.list
      [PyVal.dict [("type", PyVal.str "text"), ("text", PyVal.str "pong")]])])
    (PyVal.dict [("success", PyVal.bool true), ("result", PyVal.str "pong")])
    rfl rfl rfl (by decide) rfl rfl rfl rfl

/-- C3 counterexample: two calls observed in the same millisecond (clock
1000) are both assigned request id 1000 — the later call does NOT get a
strictly larger id — and the first id is 1000, not 3. -/
theorem C3_counterexample :
    (call_tool cfgEcho sbEcho wPong loadedState "echo" "ping" Option.none).sent.map
        (fun r => pyIndexStr r "id") = some (some (PyVal.int 1000)) ∧
    (call_tool cfgEcho sbEcho wPong
        (call_tool cfgEcho sbEcho wPong loadedState "echo" "ping" Option.none).state
        "echo" "ping" Option.none).sent.map (fun r => pyIndexStr r "id") =
      some (some (PyVal.int 1000)) ∧
    (1000 : Int) ≠ 3 :=
  ⟨rfl, rfl, by decide⟩

/-- C3 (amended): request ids are the millisecond wall clock
(`int(time.time() * 1000)`), not a per-session counter from 3: every
written frame carries id = clock, so two calls whose clock readings
strictly increase get strictly increasing ids, while calls within one
millisecond collide. -/
theorem C3_timestamp_ids (mcp1 mcp2 : List (String × PyVal)) (sb1 sb2 : SpawnBehavior)
    (w1 w2 : CallWorld) (st1 st2 : LoaderState) (sn1 sn2 tn1 tn2 : String)
    (p1 p2 : Option (List (String × PyVal))) (proc1 proc2 : Subproc)
    (hp1 : dictGet st1.server_processes sn1 = some proc1) (h1 : w1.pollDead = false)
    (hp2 : dictGet st2.server_processes sn2 = some proc2) (h2 : w2.pollDead = false)
    (hc : w1.clockMs < w2.clockMs) :
    ∃ i1 i2 : Int,
      (call_tool mcp1 sb1 w1 st1 sn1 tn1 p1).sent.map (fun r => pyIndexStr r "id") =
        some (some (PyVal.int i1)) ∧
      (call_tool mcp2 sb2 w2 st2 sn2 tn2 p2).sent.map (fun r => pyIndexStr r "id") =
        some (some (PyVal.int i2)) ∧
      i1 < i2 := by
  refine ⟨w1.clockMs, w2.clockMs, ?_, ?_, hc⟩
  · rw [call_tool_sent_live mcp1 sb1 w1 st1 sn1 tn1 p1 proc1 hp1 h1]
    rfl
  · rw [call_tool_sent_live mcp2 sb2 w2 st2 sn2 tn2 p2 proc2 hp2 h2]
    rfl

/-- C3 witness: clock readings 1000 then 1001 give ids 1000 then 1001. -/
theorem C3_witness :
    ∃ i1 i2 : Int,
      (call_tool cfgEcho sbEcho wPong loadedState "echo" "ping" Option.none).sent.map
          (fun r => pyIndexStr r "id") = some (some (PyVal.int i1)) ∧
      (call_tool cfgEcho sbEcho wLater loadedState "echo" "ping" Option.none).sent.map
          (fun r => pyIndexStr r "id") = some (some (PyVal.int i2)) ∧
      i1 < i2 :=
  C3_timestamp_ids cfgEcho cfgEcho sbEcho sbEcho wPong wLater loadedState loadedState
    "echo" "echo" "ping" "ping" Option.none Option.none { pid := 0 } { pid := 0 }
    rfl rfl rfl rfl (by decide)

/-- C4 counterexample: a child answering with text content `pong` does NOT
yield the bare string `"pong"` to the caller; `call_tool` returns the
wrapper dict `{"success": true, "result": "pong"}`. -/
theorem C4_counterexample :
    (call_tool cfgEcho sbEcho wPong loadedState "echo" "ping" Option.none).ret =
      PyVal.dict [("success", PyVal.bool true), ("result", PyVal.str "pong")] ∧
    (call_tool cfgEcho sbEcho wPong loadedState "echo" "ping" Option.none).ret ≠
      PyVal.str "pong" :=
  ⟨rfl, by decide⟩

/-- C4 (amended): for a response whose `result` carries a content array
whose first item has a string `text` field, `call_tool` returns the parsed
value when `text` parses as JSON, and otherwise returns the dict
`{"success": true, "result": text}` wrapping the raw text — not the bare
string. -/
theorem C4_unwrap_wraps_text (mcp : List (String × PyVal)) (sb : SpawnBehavior)
    (w : CallWorld) (st : LoaderState) (sn tn : String)
    (p : Option (List (String × PyVal))) (proc : Subproc) (resp : PyVal)
    (d fd : List (String × PyVal)) (rest : List PyVal) (text : String)
    (hp : dictGet st.server_processes sn = some proc) (halive : w.pollDead = false)
    (hsel : w.selectReady = true) (hne : w.responseLine ≠ "")
    (hresp : json_loads w.responseLine = some resp)
    (hr : pyIn "result" resp = some true)
    (hres : pyIndexStr resp "result" = some (PyVal.dict d))
    (hc : dictGet d "content" = some (PyVal.list (PyVal.dict fd :: rest)))
    (ht : dictGet fd "text" = some (PyVal.str text)) :
    (call_tool mcp sb w st sn tn p).ret =
      (match json_loads text with
       | some parsed => parsed
       | Option.none =>
         PyVal.dict [("success", PyVal.bool true), ("result", PyVal.str text)]) := by
  have hu : unwrapResult (PyVal.dict d) =
      some (match json_loads text with
            | some parsed => parsed
            | Option.none =>
              PyVal.dict [("success", PyVal.bool true), ("result", PyVal.str text)]) := by
    unfold unwrapResult
    dsimp only
    rw [hc]
    dsimp only
    rw [ht]
    dsimp only
    cases json_loads text <;> rfl
  obtain ⟨hret, _⟩ := call_tool_ret_of_result mcp sb w st sn tn p proc resp (PyVal.dict d)
    hp halive hsel hne hresp hr hres
  rw [hu] at hret
  exact hret

/-- C4 witness: scenario S1 (`pong` → wrapped dict) and scenario S2
(`\x7b"n": 42\x7d` → parsed object), both via the amended theorem. -/
theorem C4_witness :
    (call_tool cfgEcho sbEcho wPong loadedState "echo" "ping" Option.none).ret =
      PyVal.dict [("success", PyVal.bool true), ("result", PyVal.str "pong")] ∧
    (call_tool cfgEcho sbEcho wJson loadedState "echo" "ping" Option.none).ret =
      PyVal.dict [("n", PyVal.int 42)] := by
  constructor
  · exact C4_unwrap_wraps_text cfgEcho sbEcho wPong loadedState "echo" "ping" Option.none
      { pid := 0 }
      (PyVal.dict
        [("jsonrpc", PyVal.str "2.0"), ("id", PyVal.int 1000),
         ("result", PyVal.dict [("content", PyVal.list
           [PyVal.dict [("type", PyVal.str "text"), ("text", PyVal.str "pong")]])])])
      [("content", PyVal.list
        [PyVal.dict [("type", PyVal.str "text"), ("text", PyVal.str "pong")]])]
      [("type", PyVal.str "text"), ("text", PyVal.str "pong")]
      [] "pong" rfl rfl rfl (by decide) rfl rfl rfl rfl rfl
  · exact C4_unwrap_wraps_text cfgEcho sbEcho wJson loadedState "echo" "ping" Option.none
      { pid := 0 }
      (PyVal.dict
        [("jsonrpc", PyVal.str "2.0"), ("id", PyVal.int 1000),
         ("result", PyVal.dict [("content", PyVal.list
           [PyVal.dict [("type", PyVal.str "text"),
             ("text", PyVal.str "\x7b\"n\": 42\x7d")]])])])
      [("content", PyVal.list
        [PyVal.dict [("type", PyVal.str "text"), ("text", PyVal.str "\x7b\"n\": 42\x7d")]])]
      [("type", PyVal.str "text"), ("text", PyVal.str "\x7b\"n\": 42\x7d")]
      [] "\x7b\"n\": 42\x7d" rfl rfl rfl (by decide) rfl rfl rfl rfl rfl

/-- C5 counterexample: the control-flow skeleton of `call_tool` violates
"the registry lock is never held across a tool call's stdout wait" — the
wait step executes at lock depth 1, inside the `with self.lock:` block. -/
theorem C5_counterexample : ¬ neverHeldAcrossWait call_tool_steps := by decide

/-- C5 (amended): the registry lock IS held across the stdout wait
(`call_tool_steps` has its wait at position 2, after the acquire), and in
the two-thread interleaving semantics a concurrent call to a different
provider can never be inside its own call body while the first call sits
at its wait: it is blocked at lock acquisition until the first call — and
hence its up-to-5-second wait — completes. -/
theorem C5_lock_held_across_wait :
    (call_tool_steps.get? 2 = some LockStep.waitStdout ∧
      lockHeldBefore call_tool_steps 2 = true) ∧
    ∀ st : TwoCalls, ReachableTwo st → st.pcA = 2 → ¬ inBody st.pcB := by
  refine ⟨⟨rfl, rfl⟩, ?_⟩
  intro st hreach hpc hbody
  obtain ⟨_, _, hoa, hob⟩ := lockInv_of_reachable st hreach
  have h1 := hoa (by rw [hpc]; exact ⟨by omega, by omega⟩)
  have h2 := hob hbody
  rw [h1] at h2
  exact Bool.noConfusion (Option.some.inj h2)

/-- C5 witness: the amended claim applied to the concrete reachable state
in which thread A has acquired the lock and reached its wait while B has
not started. -/
theorem C5_witness :
    lockHeldBefore call_tool_steps 2 = true ∧
    ¬ inBody (⟨2, 0, some true⟩ : TwoCalls).pcB := by
  have step1 : TStep ⟨0, 0, Option.none⟩ ⟨1, 0, some true⟩ :=
    TStep.stepA ⟨0, 0, Option.none⟩ LockStep.acquire rfl rfl
  have step2 : TStep ⟨1, 0, some true⟩ ⟨2, 0, some true⟩ :=
    TStep.stepA ⟨1, 0, some true⟩ LockStep.work rfl rfl
  exact ⟨C5_lock_held_across_wait.1.2,
    C5_lock_held_across_wait.2 ⟨2, 0, some true⟩
      (Relation.ReflTransGen.tail
        (Relation.ReflTransGen.tail Relation.ReflTransGen.refl step1) step2) rfl⟩

/-- C6 counterexample: with providers `a` and `b` loaded in that order and
both owning tool `t`, the catalog lookup returns the descriptor owned by
`b` — the LAST loaded — not the lexicographically smallest provider `a`. -/
theorem C6_counterexample :
    (get_tool_info stAB "t").map (fun i => pyIndexStr i "server") =
      some (some (PyVal.str "b")) ∧
    PyVal.str "b" ≠ PyVal.str "a" :=
  ⟨rfl, by decide⟩

/-- C6 (amended): the collision is resolved by LOAD order, not by
lexicographic provider name: the provider iterated last in registry
(insertion) order overwrites the earlier entry, so loading a then b
yields the descriptor from b while loading b then a yields the one
from a. -/
theorem C6_last_loaded_wins :
    get_tool_info stAB "t" = some (PyVal.dict
      [("name", PyVal.str "t"), ("server", PyVal.str "b"),
       ("description", PyVal.str "from b"), ("inputSchema", PyVal.dict [])]) ∧
    get_tool_info stBA "t" = some (PyVal.dict
      [("name", PyVal.str "t"), ("server", PyVal.str "a"),
       ("description", PyVal.str "from a"), ("inputSchema", PyVal.dict [])]) :=
  ⟨rfl, rfl⟩

/-- C10: every public operation preserves the invariant that each name
holding a tool-catalog entry also holds a process-registry entry, and a
dead child observed during `call_tool` is evicted from BOTH maps before
the terminated error is returned. -/
theorem C10_registry_catalog_invariant (mcp : List (String × PyVal)) (sb : SpawnBehavior)
    (w : CallWorld) (tb : TermBehavior) (pd : Bool) (st : LoaderState)
    (sn tn : String) (p : Option (List (String × PyVal))) (h : RegInv st) :
    RegInv (load_server mcp sb st sn).2 ∧
    RegInv (call_tool mcp sb w st sn tn p).state ∧
    RegInv (unload_server tb st sn).2 ∧
    RegInv (reload_server mcp sb tb st sn).2 ∧
    RegInv (refresh_tools sb pd st sn).2 ∧
    RegInv (cleanup st) ∧
    (w.pollDead = true → is_server_loaded st sn = true →
      (call_tool mcp sb w st sn tn p).ret =
        errDict ("Server \x27" ++ sn ++ "\x27 process terminated") ∧
      sn ∉ dictKeys (call_tool mcp sb w st sn tn p).state.server_processes ∧
      sn ∉ dictKeys (call_tool mcp sb w st sn tn p).state.server_tools) := by
  refine ⟨load_server_preserves_RegInv _ _ _ _ h,
          call_tool_preserves_RegInv _ _ _ _ _ _ _ h,
          unload_server_preserves_RegInv _ _ _ h,
          reload_server_preserves_RegInv _ _ _ _ _ h,
          refresh_tools_preserves_RegInv _ _ _ _ h,
          ?_, ?_⟩
  · intro n hn
    exact absurd hn (List.not_mem_nil n)
  · intro hpd hld
    unfold is_server_loaded at hld
    obtain ⟨proc, hpe⟩ := Option.isSome_iff_exists.mp hld
    have hd := call_tool_dead mcp sb w st sn tn p proc hpe hpd
    refine ⟨hd.1, ?_, ?_⟩
    · rw [hd.2]
      intro hcon
      exact ((mem_dictKeys_dictRemove _ _ _).mp hcon).2 rfl
    · rw [hd.2]
      intro hcon
      exact ((mem_dictKeys_dictRemove _ _ _).mp hcon).2 rfl

/-- C10 witness: the invariant and the dead-child eviction evaluated on a
loaded one-provider state whose child has died. -/
theorem C10_witness :
    RegInv (load_server cfgEcho sbEcho loadedState "echo").2 ∧
    RegInv (call_tool cfgEcho sbEcho
      { pollDead := true, clockMs := 1000, selectReady := true, responseLine := "",
        excMsg := "" } loadedState "echo" "ping" Option.none).state ∧
    RegInv (unload_server { termRaises := false, excMsg := "" } loadedState "echo").2 ∧
    RegInv (reload_server cfgEcho sbEcho { termRaises := false, excMsg := "" }
      loadedState "echo").2 ∧
    RegInv (refresh_tools sbEcho false loadedState "echo").2 ∧
    RegInv (cleanup loadedState) ∧
    (({ pollDead := true, clockMs := 1000, selectReady := true, responseLine := "",
        excMsg := "" } : CallWorld).pollDead = true →
      is_server_loaded loadedState "echo" = true →
      (call_tool cfgEcho sbEcho
        { pollDead := true, clockMs := 1000, selectReady := true, responseLine := "",
          excMsg := "" } loadedState "echo" "ping" Option.none).ret =
        errDict ("Server \x27" ++ "echo" ++ "\x27 process terminated") ∧
      "echo" ∉ dictKeys (call_tool cfgEcho sbEcho
        { pollDead := true, clockMs := 1000, selectReady := true, responseLine := "",
          excMsg := "" } loadedState "echo" "ping" Option.none).state.server_processes ∧
      "echo" ∉ dictKeys (call_tool cfgEcho sbEcho
        { pollDead := true, clockMs := 1000, selectReady := true, responseLine := "",
          excMsg := "" } loadedState "echo" "ping" Option.none).state.server_tools) :=
  C10_registry_catalog_invariant cfgEcho sbEcho
    { pollDead := true, clockMs := 1000, selectReady := true, responseLine := "", excMsg := "" }
    { termRaises := false, excMsg := "" } false loadedState "echo" "ping" Option.none
    (fun _n hn => hn)
